import Mathlib

/-!
Shallow embedding of the `statWrappers` repository (files
`wrappers/ttest.py` and `wrappers/ols.py`) and proofs about it.

Python floats and ints are modelled as rationals (`ℚ`); every concrete
float arithmetic step performed by the wrappers themselves (halving a
p-value, the decision comparisons, dot products, variances, ...) is exact
on the inputs used here, so `ℚ` is faithful for those steps.  Calls into
the SciPy/NumPy libraries (`stats.ttest_1samp`, `scipy.linalg.inv`,
`numpy.log`, ...) are modelled either by explicit function parameters
(the wrapper logic is verified for every possible library result) or, for
`scipy.linalg.inv`, by an exact rational matrix inverse whose failure
condition — a singular input — matches the `LinAlgError` contract that the
wrapper code relies on.
-/

namespace StatWrappers

/-- A Python scalar value, as far as the wrappers inspect one: the `alpha`
argument of the t-test constructors may be `None`, an `int`, a `float`, a
`bool` or a `str`, and the code branches on its truthiness, its `type`,
and (for numerics) its value. -/
inductive PyScalar where
  | none
  | int (z : ℤ)
  | float (q : ℚ)
  | str (s : String)
  | bool (b : Bool)
deriving DecidableEq, Repr

/-- Python truthiness of a scalar (`if self.alpha:`): `None`, `0`, `0.0`,
`""` and `False` are falsy, everything else is truthy. -/
def PyScalar.truthy : PyScalar → Bool
  | .none => false
  | .int z => z != 0
  | .float q => q != 0
  | .str s => s != ""
  | .bool b => b

/-- Python check `type(alpha) in (int, float)` — note that Python `bool` is its own
type here, so `True`/`False` fail this check. -/
def PyScalar.isNumType : PyScalar → Bool
  | .int _ => true
  | .float _ => true
  | _ => false

/-- The numeric value of a scalar; only meaningful after `isNumType`. -/
def PyScalar.toRat : PyScalar → ℚ
  | .int z => z
  | .float q => q
  | _ => 0

/-- Python expression `type(x).__name__`, used in the alpha type error message. -/
def PyScalar.typeName : PyScalar → String
  | .none => "NoneType"
  | .int _ => "int"
  | .float _ => "float"
  | .str _ => "str"
  | .bool _ => "bool"

/-- The exceptions raised by the wrappers: `ValueError` (one string
argument), `ValueError` with a `(message, value)` argument pair (the
alpha range check passes `str(self.alpha)` as a second argument; we keep
the offending scalar itself), `LinAlgError`, and `AttributeError` for a
missing instance attribute. -/
inductive PyError where
  | valueError (msg : String)
  | valueErrorArgs (msg : String) (got : PyScalar)
  | linAlgError (msg : String)
  | attributeError (name : String)
deriving DecidableEq, Repr

/-! ## `wrappers/ttest.py` -/

/-- The message of the invalid-alternative-hypothesis `ValueError`
(ttest.py lines 59-61 and 301-303). -/
def altHypMsg (alt_hyp : String) : String :=
  "Invalid alternative hypothesis. " ++
  "Expected 'less', 'unequal', or 'greater' " ++
  "but got: '" ++ alt_hyp ++ "'"

/-- The message of the invalid-alpha-type `ValueError`
(ttest.py lines 65-67 and 307-309). -/
def alphaTypeMsg (alpha : PyScalar) : String :=
  "Invalid alpha data type. " ++ "Expected 'int' or 'float' " ++
  "but got: '" ++ alpha.typeName ++ "'"

/-- The first argument of the invalid-alpha-value `ValueError`
(ttest.py lines 70-72 and 312-314; the second argument is
`str(self.alpha)`). -/
def alphaRangeMsg : String :=
  "Invalid alpha data value. " ++ "Expected somewhere in range [0, 1] " ++
  "but got a value of:"

/-- The message of the invalid-test-type `ValueError`
(ttest.py lines 296-298). -/
def testTypeMsg (test_type : String) : String :=
  "Invalid t-test type. " ++ "Expected 'ind' or 'rel' " ++
  "but got: '" ++ test_type ++ "'"

/-- The alpha validation shared verbatim by `ttest_1samp.check_params`
(lines 63-72) and `ttest_2samp.check_params` (lines 305-314): the checks
run only under `if self.alpha:`, i.e. only for a truthy alpha. -/
def checkAlpha (alpha : PyScalar) : Except PyError Unit :=
  if alpha.truthy then
    if ¬ alpha.isNumType then .error (.valueError (alphaTypeMsg alpha))
    else if alpha.toRat < 0 ∨ alpha.toRat > 1 then
      .error (.valueErrorArgs alphaRangeMsg alpha)
    else .ok ()
  else .ok ()

/-- Embeds `ttest_1samp.check_params` (ttest.py lines 48-72). -/
def check_params_1samp (alt_hyp : String) (alpha : PyScalar) :
    Except PyError Unit := do
  if alt_hyp ∉ ["less", "unequal", "greater"] then
    throw (.valueError (altHypMsg alt_hyp))
  checkAlpha alpha

/-- Embeds `ttest_2samp.check_params` (ttest.py lines 285-314): the `test_type`
check precedes the `alt_hyp` check, which precedes the alpha checks. -/
def check_params_2samp (test_type alt_hyp : String) (alpha : PyScalar) :
    Except PyError Unit := do
  if test_type ∉ ["ind", "rel"] then
    throw (.valueError (testTypeMsg test_type))
  if alt_hyp ∉ ["less", "unequal", "greater"] then
    throw (.valueError (altHypMsg alt_hyp))
  checkAlpha alpha

/-- The state of a constructed `ttest_1samp` instance. -/
structure TT1 where
  a : List ℚ
  popmean : ℚ
  alt_hyp : String
  alpha : PyScalar
  t_stat : ℚ
  p_val : ℚ
deriving DecidableEq, Repr

/-- Embeds `ttest_1samp.__init__` (ttest.py lines 9-46) followed by `test`
(lines 74-85).  `raw` stands for the library call
`scipy.stats.ttest_1samp`, returning the raw two-sided
(t-statistic, p-value) pair; the construction logic is verified for every
possible library result.  `check_params` runs before `test`, so on a
validation failure no t-statistic is ever computed. -/
def ttest_1samp (raw : List ℚ → ℚ → ℚ × ℚ) (a : List ℚ) (popmean : ℚ)
    (alt_hyp : String) (alpha : PyScalar) : Except PyError TT1 := do
  check_params_1samp alt_hyp alpha
  let (t, p) := raw a popmean
  let p := if alt_hyp ≠ "unequal" then p / 2 else p
  return ⟨a, popmean, alt_hyp, alpha, t, p⟩

/-- The state of a constructed `ttest_2samp` instance. -/
structure TT2 where
  a : List ℚ
  b : List ℚ
  test_type : String
  equal_var : Bool
  alt_hyp : String
  alpha : PyScalar
  t_stat : ℚ
  p_val : ℚ
deriving DecidableEq, Repr

/-- Embeds `ttest_2samp.__init__` (ttest.py lines 234-283) followed by `test`
(lines 316-332).  `rawInd` and `rawRel` stand for `scipy.stats.ttest_ind`
(with its `equal_var` flag) and `scipy.stats.ttest_rel`. -/
def ttest_2samp (rawInd : List ℚ → List ℚ → Bool → ℚ × ℚ)
    (rawRel : List ℚ → List ℚ → ℚ × ℚ) (a b : List ℚ)
    (test_type : String) (equal_var : Bool) (alt_hyp : String)
    (alpha : PyScalar) : Except PyError TT2 := do
  check_params_2samp test_type alt_hyp alpha
  let (t, p) := if test_type = "ind" then rawInd a b equal_var else rawRel a b
  let p := if alt_hyp ≠ "unequal" then p / 2 else p
  return ⟨a, b, test_type, equal_var, alt_hyp, alpha, t, p⟩

/-- The null-hypothesis decision appearing verbatim in
`ttest_1samp.summary` (lines 138-139), `ttest_1samp.to_file`
(lines 205-206), `ttest_2samp.summary` (lines 390-391) and
`ttest_2samp.to_file` (lines 462-463): the null is NOT rejected when
`(self.alpha and self.p_val >= self.alpha) or self.p_val == 0 or
not self.alpha`. -/
def rejectNull (alpha : PyScalar) (p_val : ℚ) : Bool :=
  ! ((alpha.truthy && decide (p_val ≥ alpha.toRat)) ||
     decide (p_val = 0) || ! alpha.truthy)

/-- The direction check guarding "Accept Alternative Hypothesis"
(ttest.py lines 146-148, 213-215, 398-400, 470-472). -/
def dirOK (alt_hyp : String) (t_stat : ℚ) : Bool :=
  alt_hyp == "unequal" ||
  (alt_hyp == "less" && decide (t_stat < 0)) ||
  (alt_hyp == "greater" && decide (t_stat > 0))

/-- The alternative-hypothesis decision: `accept_alt` is `True` exactly
in the reject branch when the direction check holds (same four code
locations as `rejectNull`). -/
def acceptAlt (alpha : PyScalar) (alt_hyp : String) (t_stat p_val : ℚ) :
    Bool :=
  rejectNull alpha p_val && dirOK alt_hyp t_stat

/-! ## `wrappers/ols.py`

Matrices are lists of rows of rationals.  `scipy.linalg.inv` is modelled
by an exact rational inverse (`pyInv`) that fails exactly on a singular
input, matching the `LinAlgError` contract the wrapper relies on.  The
irrational library functions (`numpy.sqrt`, `stats.t.cdf`,
`stats.f.cdf`, `numpy.log`, `stats.skew`, `stats.kurtosis`,
`stats.chi2.cdf`, the core of `stats.normaltest`, and the float constant
`numpy.pi`) are taken as parameters, so the wrapper logic is verified for
every possible library behaviour. -/

/-- Sum of pairwise products — `scipy.dot` on two vectors. -/
def dotL (xs ys : List ℚ) : ℚ := (List.zipWith (· * ·) xs ys).sum

/-- Transpose of a (well-formed) list-of-rows matrix. -/
def transposeL (m : List (List ℚ)) : List (List ℚ) :=
  (List.range (m.headD []).length).map (fun j => m.map (fun r => r.getD j 0))

/-- Matrix product — `scipy.dot` on two matrices. -/
def matMul (a b : List (List ℚ)) : List (List ℚ) :=
  a.map (fun r => (transposeL b).map (fun c => dotL r c))

/-- Matrix–vector product — `scipy.dot` on a matrix and a vector. -/
def matVec (a : List (List ℚ)) (v : List ℚ) : List ℚ :=
  a.map (fun r => dotL r v)

/-- Remove the entry at index `i` from a list. -/
def dropIdx {α : Type} (i : ℕ) (xs : List α) : List α :=
  xs.take i ++ xs.drop (i + 1)

/-- Determinant by Laplace expansion along the first row; `fuel` bounds
the recursion by the row count. -/
def detAux : ℕ → List (List ℚ) → ℚ
  | 0, _ => 1
  | _, [] => 1
  | n + 1, r :: rs =>
      (r.enum.map (fun p =>
        (if p.1 % 2 = 0 then p.2 else -p.2) *
          detAux n (rs.map (dropIdx p.1)))).sum

/-- Determinant of a (square) list-of-rows matrix. -/
def detL (m : List (List ℚ)) : ℚ := detAux m.length m

/-- The `(i, j)` minor of a matrix. -/
def minorL (i j : ℕ) (m : List (List ℚ)) : List (List ℚ) :=
  (dropIdx i m).map (dropIdx j)

/-- Exact inverse via the adjugate; meaningful when `detL m ≠ 0`. -/
def matInvL (m : List (List ℚ)) : List (List ℚ) :=
  let d := detL m
  let n := m.length
  (List.range n).map (fun i => (List.range n).map (fun j =>
    (if (i + j) % 2 = 0 then 1 else -1) * detL (minorL j i m) / d))

/-- Model of `scipy.linalg.inv`: raises `LinAlgError` exactly when the
matrix is singular (zero determinant), otherwise returns the inverse. -/
def pyInv (m : List (List ℚ)) : Option (List (List ℚ)) :=
  if detL m = 0 then none else some (matInvL m)

/-- The diagnostic message raised by `ols.estimate` when the Gram matrix
is singular (ols.py lines 136-140). -/
def singularMsg : String :=
  "\n\nYour matrix of independent observations is singular!" ++
  "\nUnfortunately, that means we cannot compute an OLS" ++
  "\nmodel for your provided data. Terminating immediately."

/-- Embeds `numpy.diagonal` on a list-of-rows matrix. -/
def diagL (m : List (List ℚ)) : List ℚ :=
  m.enum.map (fun p => p.2.getD p.1 0)

/-- Scalar–matrix product. -/
def smulL (c : ℚ) (m : List (List ℚ)) : List (List ℚ) :=
  m.map (fun r => r.map (fun v => c * v))

/-- Embeds `numpy.ndarray.var()`: population variance (normalised by `n`). -/
def popVar (xs : List ℚ) : ℚ :=
  let n : ℚ := xs.length
  let mu := xs.sum / n
  (xs.map (fun v => (v - mu) ^ 2)).sum / n

/-- The predictor input `x` of `ols.__init__`: either a one-dimensional
NumPy array (`len(x.shape) == 1`) or a two-dimensional one. -/
inductive XInput where
  | one (xs : List ℚ)
  | two (m : List (List ℚ))
deriving DecidableEq, Repr

/-- Shape component `x.shape[0]`: the number of observations. -/
def XInput.nrows : XInput → ℕ
  | .one xs => xs.length
  | .two m => m.length

/-- Shape component `x.shape[1]` of a two-dimensional input (the column count). -/
def XInput.ncols : XInput → ℕ
  | .one _ => 1
  | .two m => (m.headD []).length

/-- Python check `len(x.shape) == 1`. -/
def XInput.isOneDim : XInput → Bool
  | .one _ => true
  | .two _ => false

/-- Embeds `c_[ones(x.shape[0]), x]` (ols.py line 51): prepend an intercept
column of ones. -/
def XInput.augment : XInput → List (List ℚ)
  | .one xs => xs.map (fun v => [1, v])
  | .two m => m.map (fun r => 1 :: r)

/-- The variable-name block of `ols.__init__` (ols.py lines 53-63).
`x_varnm` is the optional user list; `if not x_varnm:` treats both
`None` and an empty list as absent.  No length check of a supplied list
is performed anywhere. -/
def x_names (x : XInput) (x_varnm : Option (List String)) : List String :=
  match x_varnm with
  | Option.none => defaultNames x
  | some l =>
      if l = [] then defaultNames x
      else "const" :: l
where
  /-- Default names (ols.py lines 54-60): one predictor column gives
  `["const", "x"]`, `k > 1` columns give `["const", "x1", ..., "xk"]`. -/
  defaultNames (x : XInput) : List String :=
    if x.isOneDim ∨ x.ncols = 1 then ["const", "x"]
    else "const" :: (List.range' 1 x.ncols).map (fun i => "x" ++ toString i)

/-- The state of a constructed `ols` instance: exactly the attributes
stored by `__init__` and `estimate` (ols.py lines 51-68 and 126-158). -/
structure OlsResult where
  x : List (List ℚ)
  x_varnm : List String
  y : List ℚ
  y_varnm : String
  inv_xx : List (List ℚ)
  b : List ℚ
  nobs : ℕ
  ncoef : ℕ
  df_e : ℤ
  df_r : ℤ
  e : List ℚ
  sse : ℚ
  se : List ℚ
  t : List ℚ
  p : List ℚ
  R2 : ℚ
  R2adj : ℚ
  F : ℚ
  Fpv : ℚ
deriving DecidableEq, Repr

/-- Embeds `ols.estimate` (ols.py lines 70-158), acting on the stored augmented
design `x`, names, `y` and `y_varnm`.  `sqrtF`, `tcdf` and `fcdf` stand
for `numpy.sqrt`, `stats.t.cdf` and `stats.f.cdf`.  If
`inv(dot(x.T, x))` raises `LinAlgError` (singular Gram matrix), the
except block re-raises `LinAlgError` with the diagnostic `singularMsg`
and no instance is produced. -/
def estimate (sqrtF : ℚ → ℚ) (tcdf : ℚ → ℚ → ℚ) (fcdf : ℚ → ℚ → ℚ → ℚ)
    (x : List (List ℚ)) (x_varnm : List String) (y : List ℚ)
    (y_varnm : String) : Except PyError OlsResult :=
  match pyInv (matMul (transposeL x) x) with
  | Option.none => .error (.linAlgError singularMsg)
  | some inv_xx =>
      let xy := matVec (transposeL x) y
      let b := matVec inv_xx xy
      let nobs := y.length
      let ncoef := (x.headD []).length
      let df_e : ℤ := (nobs : ℤ) - (ncoef : ℤ)
      let df_r : ℤ := (ncoef : ℤ) - 1
      let e := List.zipWith (· - ·) y (matVec x b)
      let sse := dotL e e / (df_e : ℚ)
      let se := (diagL (smulL sse inv_xx)).map sqrtF
      let t := List.zipWith (· / ·) b se
      let p := t.map (fun ti => (1 - tcdf |ti| (df_e : ℚ)) * 2)
      let R2 := 1 - popVar e / popVar y
      let R2adj := 1 - (1 - R2) * (((nobs : ℚ) - 1) / ((nobs : ℚ) - (ncoef : ℚ)))
      let F := (R2 / (df_r : ℚ)) / ((1 - R2) / (df_e : ℚ))
      let Fpv := 1 - fcdf F (df_r : ℚ) (df_e : ℚ)
      .ok ⟨x, x_varnm, y, y_varnm, inv_xx, b, nobs, ncoef, df_e, df_r,
           e, sse, se, t, p, R2, R2adj, F, Fpv⟩

/-- Embeds `ols.__init__` (ols.py lines 21-68): augments the design matrix,
resolves the variable names, and immediately runs `estimate`. -/
def ols_init (sqrtF : ℚ → ℚ) (tcdf : ℚ → ℚ → ℚ) (fcdf : ℚ → ℚ → ℚ → ℚ)
    (x : XInput) (y : List ℚ) (x_varnm : Option (List String))
    (y_varnm : String) : Except PyError OlsResult :=
  estimate sqrtF tcdf fcdf x.augment (x_names x x_varnm) y y_varnm

/-- A Python float as far as the omnibus test reports one: either a
number or `numpy.nan`. -/
inductive PyFloat where
  | nan
  | val (q : ℚ)
deriving DecidableEq, Repr

/-- Embeds `scipy.diff(v, 1)`: successive differences. -/
def diffL : List ℚ → List ℚ
  | a :: b :: rest => (b - a) :: diffL (b :: rest)
  | _ => []

/-- Embeds `ols.dw` (ols.py lines 160-171), as a state transformer on the
instance: it computes the Durbin-Watson statistic from the stored
residuals and — like the source, which contains no attribute
assignment — returns the instance state unchanged. -/
def OlsResult.dw (r : OlsResult) : ℚ × OlsResult :=
  let de := diffL r.e
  (dotL de de / dotL r.e r.e, r)

/-- Model of `scipy.stats.normaltest`: per its documentation it raises
`ValueError` (via `skewtest`) when the sample has fewer than 8
observations, and otherwise returns the skewness/kurtosis-based statistic
and p-value, here abstracted as `core`. -/
def normaltest (core : List ℚ → ℚ × ℚ) (e : List ℚ) :
    Except PyError (ℚ × ℚ) :=
  if e.length < 8 then
    .error (.valueError
      "skewtest is not valid with less than 8 samples")
  else .ok (core e)

/-- Embeds `ols.omni` (ols.py lines 173-193), as a state transformer: it wraps
`stats.normaltest(self.e)` in `try/except ValueError`, returning
`(nan, nan)` when the library call raises; the state is returned
unchanged (the source assigns no attribute). -/
def OlsResult.omni (core : List ℚ → ℚ × ℚ) (r : OlsResult) :
    (PyFloat × PyFloat) × OlsResult :=
  (match normaltest core r.e with
   | .ok (s, p) => (.val s, .val p)
   | .error _ => (.nan, .nan), r)

/-- Embeds `ols.JB` (ols.py lines 195-211), as a state transformer.  `skewF`,
`kurtF` and `chi2cdf` stand for `stats.skew`, `stats.kurtosis` (excess
kurtosis) and `stats.chi2.cdf`; the returned quadruple is
`(JB, JBpv, skew, kurtosis)` and the state is unchanged. -/
def OlsResult.JB (skewF kurtF : List ℚ → ℚ) (chi2cdf : ℚ → ℚ → ℚ)
    (r : OlsResult) : (ℚ × ℚ × ℚ × ℚ) × OlsResult :=
  let skew := skewF r.e
  let kurtosis := 3 + kurtF r.e
  let jb := ((r.nobs : ℚ) / 6) * (skew ^ 2 + (1 / 4) * (kurtosis - 3) ^ 2)
  ((jb, 1 - chi2cdf jb 2, skew, kurtosis), r)

/-- Embeds `ols.ll` (ols.py lines 213-229), as a state transformer.  `logF` and
`piQ` stand for `numpy.log` and the float constant `numpy.pi`; the
returned triple is `(ll, aic, bic)` and the state is unchanged. -/
def OlsResult.ll (logF : ℚ → ℚ) (piQ : ℚ) (r : OlsResult) :
    (ℚ × ℚ × ℚ) × OlsResult :=
  let l := -((r.nobs : ℚ) / 2) * (1 + logF (2 * piQ)) -
    ((r.nobs : ℚ) / 2) * logF (dotL r.e r.e / (r.nobs : ℚ))
  let aic := -2 * l / (r.nobs : ℚ) + (2 * (r.ncoef : ℚ) / (r.nobs : ℚ))
  let bic := -2 * l / (r.nobs : ℚ) +
    ((r.ncoef : ℚ) * logF (r.nobs : ℚ)) / (r.nobs : ℚ)
  ((l, aic, bic), r)

/-! ### Dynamic attribute names

Python instance attributes are resolved by name at run time, so the
`ncoefs`/`ncoef` question is about attribute-name strings.  We record the
exact set of names `ols.__init__` and `ols.estimate` assign, and replay
`ols.to_file`'s attribute reads in source order. -/

/-- The instance attribute names assigned by `ols.__init__`
(ols.py lines 51-66: `x`, `x_varnm`, `y`, `y_varnm`) and by
`ols.estimate` (lines 127-158: `inv_xx`, `b`, `nobs`, `ncoef`, `df_e`,
`df_r`, `e`, `sse`, `se`, `t`, `p`, `R2`, `R2adj`, `F`, `Fpv`). -/
def olsStoredAttrs : List String :=
  ["x", "x_varnm", "y", "y_varnm",
   "inv_xx", "b", "nobs", "ncoef", "df_e", "df_r",
   "e", "sse", "se", "t", "p", "R2", "R2adj", "F", "Fpv"]

/-- Python attribute lookup `getattr`: reading a missing instance attribute raises
`AttributeError`. -/
def getattrE (attrs : List String) (name : String) : Except PyError Unit :=
  if name ∈ attrs then .ok () else .error (.attributeError name)

/-- The instance-attribute reads performed by `ols.to_file`
(ols.py lines 271-342), in source order: the calls `self.ll()`
(reads `nobs`, `e`, `ncoef`), `self.JB()` (reads `e`, `nobs`) and
`self.omni()` (reads `e`) on lines 289-291; then `self.y` (295),
`self.nobs` (301), `self.ncoefs` (302), the estimates loop reading
`x_varnm`, `b`, `se`, `t`, `p` (306-314), `R2`/`R2adj` (318-319),
`self.dw()` reading `e` (321), and `F`/`Fpv` (326-327).  Only after all
of these does the file get opened and written (lines 339-342), modelled
by the final `.ok`. -/
def ols_to_file (attrs : List String) : Except PyError Unit := do
  getattrE attrs "nobs"; getattrE attrs "e"; getattrE attrs "ncoef"
  getattrE attrs "e"; getattrE attrs "nobs"
  getattrE attrs "e"
  getattrE attrs "y"
  getattrE attrs "nobs"
  getattrE attrs "ncoefs"
  getattrE attrs "x_varnm"; getattrE attrs "b"; getattrE attrs "se"
  getattrE attrs "t"; getattrE attrs "p"
  getattrE attrs "R2"; getattrE attrs "R2adj"
  getattrE attrs "e"
  getattrE attrs "F"; getattrE attrs "Fpv"
  return ()

/-! ### Assumptions text of the two-sample t-test reports -/

/-- The `assumptions` string built by `ttest_2samp.summary`
(ttest.py lines 346-352): for `test_type == 'ind'` the conditional
expression appends `'\n   Equal Variances'` when `equal_var` is true and
`'\n\tEqual Variances'` when it is false. -/
def summary_2samp_assumptions (test_type : String) (equal_var : Bool) :
    String :=
  if test_type = "ind" then
    let a := "   Independent Samples"
    if equal_var then a ++ "\n   Equal Variances"
    else a ++ "\n\tEqual Variances"
  else "Related Samples"

/-- The `assumptions` list built by `ttest_2samp.to_file`
(ttest.py lines 427-433): for `test_type == 'ind'` both arms of the
conditional expression append `['Equal Variances']`. -/
def to_file_2samp_assumptions (test_type : String) (equal_var : Bool) :
    List String :=
  if test_type = "ind" then
    let a := ["Independent Samples"]
    if equal_var then a ++ ["Equal Variances"] else a ++ ["Equal Variances"]
  else ["Related Samples"]

/-! ## Helper lemmas -/

/-- A successful `ttest_1samp` construction passed `check_params` and
stored exactly the arguments together with the (possibly halved) library
result. -/
theorem ttest_1samp_ok_elim {raw : List ℚ → ℚ → ℚ × ℚ} {a : List ℚ}
    {pm : ℚ} {alt : String} {al : PyScalar} {tt : TT1}
    (h : ttest_1samp raw a pm alt al = .ok tt) :
    check_params_1samp alt al = .ok () ∧
    tt = ⟨a, pm, alt, al, (raw a pm).1,
          if alt ≠ "unequal" then (raw a pm).2 / 2 else (raw a pm).2⟩ := by
  unfold ttest_1samp at h
  cases hc : check_params_1samp alt al with
  | error e =>
      rw [hc] at h
      exact absurd h (by simp [Bind.bind, Except.bind])
  | ok u =>
      cases u
      rw [hc] at h
      simp only [Bind.bind, Except.bind, pure, Except.pure, Except.ok.injEq] at h
      exact ⟨rfl, h.symm⟩

/-- A successful `ttest_2samp` construction passed `check_params` and
stored exactly the arguments together with the (possibly halved) library
result of the selected test. -/
theorem ttest_2samp_ok_elim {rawInd : List ℚ → List ℚ → Bool → ℚ × ℚ}
    {rawRel : List ℚ → List ℚ → ℚ × ℚ} {a b : List ℚ} {ty : String}
    {ev : Bool} {alt : String} {al : PyScalar} {tt : TT2}
    (h : ttest_2samp rawInd rawRel a b ty ev alt al = .ok tt) :
    check_params_2samp ty alt al = .ok () ∧
    tt = ⟨a, b, ty, ev, alt, al,
          (if ty = "ind" then rawInd a b ev else rawRel a b).1,
          if alt ≠ "unequal" then
            (if ty = "ind" then rawInd a b ev else rawRel a b).2 / 2
          else (if ty = "ind" then rawInd a b ev else rawRel a b).2⟩ := by
  unfold ttest_2samp at h
  cases hc : check_params_2samp ty alt al with
  | error e =>
      rw [hc] at h
      exact absurd h (by simp [Bind.bind, Except.bind])
  | ok u =>
      cases u
      rw [hc] at h
      simp only [Bind.bind, Except.bind, pure, Except.pure, Except.ok.injEq] at h
      exact ⟨rfl, h.symm⟩

/-- Lemma: `check_params_1samp` succeeds only on the three legal alternative
hypotheses and a validated alpha. -/
theorem check_params_1samp_ok_elim {alt : String} {al : PyScalar}
    (h : check_params_1samp alt al = .ok ()) :
    alt ∈ ["less", "unequal", "greater"] ∧ checkAlpha al = .ok () := by
  unfold check_params_1samp at h
  by_cases hm : alt ∈ ["less", "unequal", "greater"]
  · refine ⟨hm, ?_⟩
    simpa [hm, Bind.bind, Except.bind, throw, throwThe, MonadExceptOf.throw] using h
  · simp [hm, Bind.bind, Except.bind, throw, throwThe, MonadExceptOf.throw] at h

/-- Lemma: `check_params_2samp` succeeds only on a legal test type, a legal
alternative hypothesis and a validated alpha. -/
theorem check_params_2samp_ok_elim {ty alt : String} {al : PyScalar}
    (h : check_params_2samp ty alt al = .ok ()) :
    ty ∈ ["ind", "rel"] ∧ alt ∈ ["less", "unequal", "greater"] ∧
      checkAlpha al = .ok () := by
  unfold check_params_2samp at h
  by_cases hty : ty ∈ ["ind", "rel"]
  · by_cases hm : alt ∈ ["less", "unequal", "greater"]
    · refine ⟨hty, hm, ?_⟩
      simpa [hty, hm, Bind.bind, Except.bind, throw, throwThe,
        MonadExceptOf.throw, pure, Except.pure] using h
    · simp [hty, hm, Bind.bind, Except.bind, throw, throwThe,
        MonadExceptOf.throw, pure, Except.pure] at h
  · simp [hty, Bind.bind, Except.bind, throw, throwThe,
      MonadExceptOf.throw, pure, Except.pure] at h

/-- If the alpha validation passed and alpha is truthy, then alpha is
numeric and lies in `[0, 1]`. -/
theorem checkAlpha_ok_truthy {al : PyScalar} (h : checkAlpha al = .ok ())
    (ht : al.truthy = true) :
    al.isNumType = true ∧ 0 ≤ al.toRat ∧ al.toRat ≤ 1 := by
  unfold checkAlpha at h
  rw [ht] at h
  by_cases hn : al.isNumType
  · refine ⟨hn, ?_⟩
    by_cases hr : al.toRat < 0 ∨ al.toRat > 1
    · simp [hn, hr] at h
    · push_neg at hr
      exact ⟨hr.1, hr.2⟩
  · simp [hn] at h

/-- On a validated alpha, truthiness coincides with "supplied, numeric
and strictly positive". -/
theorem truthy_iff_pos {al : PyScalar} (h : checkAlpha al = .ok ()) :
    al.truthy = true ↔
      (al ≠ .none ∧ al.isNumType = true ∧ 0 < al.toRat) := by
  constructor
  · intro ht
    obtain ⟨hn, h0, _⟩ := checkAlpha_ok_truthy h ht
    refine ⟨?_, hn, ?_⟩
    · intro he; rw [he] at ht; exact absurd ht (by simp [PyScalar.truthy])
    · rcases al with _ | z | q | s | b
      · simp [PyScalar.isNumType] at hn
      · have hz : z ≠ 0 := by simpa [PyScalar.truthy] using ht
        have hz' : ((z : ℚ)) ≠ 0 := by exact_mod_cast hz
        simp only [PyScalar.toRat] at h0 ⊢
        exact lt_of_le_of_ne h0 (Ne.symm hz')
      · have hq : q ≠ 0 := by simpa [PyScalar.truthy] using ht
        simp only [PyScalar.toRat] at h0 ⊢
        exact lt_of_le_of_ne h0 (Ne.symm hq)
      · simp [PyScalar.isNumType] at hn
      · simp [PyScalar.isNumType] at hn
  · rintro ⟨hne, hn, hpos⟩
    rcases al with _ | z | q | s | b
    · exact absurd rfl hne
    · simp only [PyScalar.toRat] at hpos
      have : z ≠ 0 := by exact_mod_cast ne_of_gt hpos
      simpa [PyScalar.truthy] using this
    · simp only [PyScalar.toRat] at hpos
      simpa [PyScalar.truthy] using ne_of_gt hpos
    · simp [PyScalar.isNumType] at hn
    · simp [PyScalar.isNumType] at hn

/-- On a validated alpha, the null-rejection flag holds exactly when
alpha is supplied, numeric and positive, and the p-value is below alpha
and nonzero. -/
theorem rejectNull_iff {al : PyScalar} (h : checkAlpha al = .ok ())
    (p : ℚ) :
    rejectNull al p = true ↔
      (al ≠ .none ∧ al.isNumType = true ∧ 0 < al.toRat ∧
       p < al.toRat ∧ p ≠ 0) := by
  constructor
  · intro hr
    have hta : al.truthy = true := by
      by_contra hf
      rw [Bool.not_eq_true] at hf
      simp [rejectNull, hf] at hr
    have hp0 : p ≠ 0 := by
      intro h0
      simp [rejectNull, h0] at hr
    have hlt : p < al.toRat := by
      by_contra hf
      push_neg at hf
      simp [rejectNull, hta, hf] at hr
    obtain ⟨hne, hn, hpos⟩ := (truthy_iff_pos h).mp hta
    exact ⟨hne, hn, hpos, hlt, hp0⟩
  · rintro ⟨hne, hn, hpos, hlt, hp0⟩
    have hta : al.truthy = true := (truthy_iff_pos h).mpr ⟨hne, hn, hpos⟩
    simp [rejectNull, hta, hp0, not_le.mpr hlt]

/-- The alternative-acceptance flag is the conjunction of the rejection
flag and the direction check. -/
theorem acceptAlt_iff (al : PyScalar) (alt : String) (t p : ℚ) :
    acceptAlt al alt t p = true ↔
      (rejectNull al p = true ∧
        (alt = "unequal" ∨ (alt = "less" ∧ t < 0) ∨
         (alt = "greater" ∧ 0 < t))) := by
  unfold acceptAlt dirOK
  simp [Bool.and_eq_true, Bool.or_eq_true, decide_eq_true_eq, or_assoc]

/-- A numeric alpha outside `[0, 1]` is nonzero, hence truthy. -/
theorem truthy_of_out_of_range {al : PyScalar} (hn : al.isNumType = true)
    (hr : al.toRat < 0 ∨ 1 < al.toRat) : al.truthy = true := by
  rcases al with _ | z | q | s | b
  · simp [PyScalar.isNumType] at hn
  · simp only [PyScalar.toRat] at hr
    have hz : z ≠ 0 := by
      rcases hr with h | h
      · exact_mod_cast ne_of_lt h
      · have : (0 : ℚ) < (z : ℚ) := lt_trans one_pos h
        exact_mod_cast ne_of_gt this
    simpa [PyScalar.truthy] using hz
  · simp only [PyScalar.toRat] at hr
    have hq : q ≠ 0 := by
      rcases hr with h | h
      · exact ne_of_lt h
      · exact ne_of_gt (lt_trans one_pos h)
    simpa [PyScalar.truthy] using hq
  · simp [PyScalar.isNumType] at hn
  · simp [PyScalar.isNumType] at hn

/-- A truthy non-numeric alpha fails the type check. -/
theorem checkAlpha_type_error {al : PyScalar} (ht : al.truthy = true)
    (hn : al.isNumType = false) :
    checkAlpha al = .error (.valueError (alphaTypeMsg al)) := by
  unfold checkAlpha
  rw [ht]
  simp [hn]

/-- A numeric alpha outside `[0, 1]` fails the range check. -/
theorem checkAlpha_range_error {al : PyScalar} (hn : al.isNumType = true)
    (hr : al.toRat < 0 ∨ 1 < al.toRat) :
    checkAlpha al = .error (.valueErrorArgs alphaRangeMsg al) := by
  unfold checkAlpha
  rw [truthy_of_out_of_range hn hr]
  simp only [hn, Bool.not_true, if_true, if_false]
  rw [if_neg (by simp), if_pos (by simpa [gt_iff_lt] using hr)]

/-- A `check_params` failure aborts `ttest_1samp` construction with that
error (before any t-statistic is computed). -/
theorem ttest_1samp_error {raw : List ℚ → ℚ → ℚ × ℚ} {a : List ℚ} {pm : ℚ}
    {alt : String} {al : PyScalar} {e : PyError}
    (h : check_params_1samp alt al = .error e) :
    ttest_1samp raw a pm alt al = .error e := by
  unfold ttest_1samp
  rw [h]
  rfl

/-- A `check_params` failure aborts `ttest_2samp` construction with that
error (before any t-statistic is computed). -/
theorem ttest_2samp_error {rawInd : List ℚ → List ℚ → Bool → ℚ × ℚ}
    {rawRel : List ℚ → List ℚ → ℚ × ℚ} {a b : List ℚ} {ty : String}
    {ev : Bool} {alt : String} {al : PyScalar} {e : PyError}
    (h : check_params_2samp ty alt al = .error e) :
    ttest_2samp rawInd rawRel a b ty ev alt al = .error e := by
  unfold ttest_2samp
  rw [h]
  rfl

/-- An out-of-enum alternative hypothesis fails `check_params_1samp`. -/
theorem check_params_1samp_alt_error {alt : String} {al : PyScalar}
    (h : alt ∉ ["less", "unequal", "greater"]) :
    check_params_1samp alt al = .error (.valueError (altHypMsg alt)) := by
  unfold check_params_1samp
  simp [h, throw, throwThe, MonadExceptOf.throw, Bind.bind, Except.bind]

/-- With a legal alternative hypothesis, `check_params_1samp` reduces to
the alpha validation. -/
theorem check_params_1samp_alpha {alt : String} {al : PyScalar}
    (h : alt ∈ ["less", "unequal", "greater"]) :
    check_params_1samp alt al = checkAlpha al := by
  unfold check_params_1samp
  simp [h, Bind.bind, Except.bind, pure, Except.pure]

/-- An out-of-enum alternative hypothesis fails `check_params_2samp`
(once the test type is legal). -/
theorem check_params_2samp_alt_error {ty alt : String} {al : PyScalar}
    (hty : ty ∈ ["ind", "rel"]) (h : alt ∉ ["less", "unequal", "greater"]) :
    check_params_2samp ty alt al = .error (.valueError (altHypMsg alt)) := by
  unfold check_params_2samp
  simp [hty, h, throw, throwThe, MonadExceptOf.throw, Bind.bind, Except.bind,
    pure, Except.pure]

/-- With legal test type and alternative hypothesis,
`check_params_2samp` reduces to the alpha validation. -/
theorem check_params_2samp_alpha {ty alt : String} {al : PyScalar}
    (hty : ty ∈ ["ind", "rel"]) (h : alt ∈ ["less", "unequal", "greater"]) :
    check_params_2samp ty alt al = checkAlpha al := by
  unfold check_params_2samp
  simp [hty, h, Bind.bind, Except.bind, pure, Except.pure]

/-! ## Claim theorems -/

/-- C9: for every successfully constructed OLS engine (whose instance
attributes are exactly `olsStoredAttrs`), `ols.to_file` raises
`AttributeError` on the name `ncoefs` — `estimate` only ever stores
`ncoef` — and therefore terminates before the file is ever opened and
written (the final `.ok` of `ols_to_file` is never reached, so the
export never completes). -/
theorem to_file_ncoefs_attribute_error :
    ols_to_file olsStoredAttrs = .error (.attributeError "ncoefs") ∧
    "ncoefs" ∉ olsStoredAttrs ∧ "ncoef" ∈ olsStoredAttrs := by
  refine ⟨?_, by decide, by decide⟩
  rfl

/-- C10: for an independent two-sample t-test (`test_type = 'ind'`), the
assumptions text of `summary` and the assumptions list of `to_file` both
contain `'Equal Variances'` whatever the value of `equal_var`; the
`to_file` list is even identical in the two cases, both arms of its
conditional appending `['Equal Variances']`. -/
theorem ind_assumptions_always_equal_variances :
    ∀ ev : Bool,
      "Equal Variances" ∈ to_file_2samp_assumptions "ind" ev ∧
      to_file_2samp_assumptions "ind" ev =
        ["Independent Samples", "Equal Variances"] ∧
      ∃ pre post,
        summary_2samp_assumptions "ind" ev =
          pre ++ "Equal Variances" ++ post := by
  intro ev
  cases ev
  · exact ⟨by decide, by decide,
      "   Independent Samples\n\t", "", by decide⟩
  · exact ⟨by decide, by decide,
      "   Independent Samples\n   ", "", by decide⟩

/-- C8: the diagnostic methods `dw`, `omni`, `JB` and `ll` of a
constructed OLS result are pure: each returns the instance state
unchanged, a repeated call returns the identical value, and every stored
field (`b`, `e`, `se`, `t`, `p`, `R2`, `R2adj`, `F`, `Fpv`, `nobs`,
`ncoef`, `df_e`, `df_r`) survives any sequence of the four calls
unchanged — for every behaviour of the library functions the methods
delegate to. -/
theorem diagnostics_idempotent :
    ∀ (core : List ℚ → ℚ × ℚ) (skewF kurtF : List ℚ → ℚ)
      (chi2cdf : ℚ → ℚ → ℚ) (logF : ℚ → ℚ) (piQ : ℚ) (r : OlsResult),
      (r.dw.2 = r ∧ (r.omni core).2 = r ∧
        (r.JB skewF kurtF chi2cdf).2 = r ∧ (r.ll logF piQ).2 = r) ∧
      (r.dw.2.dw.1 = r.dw.1 ∧
        ((r.omni core).2.omni core).1 = (r.omni core).1 ∧
        ((r.JB skewF kurtF chi2cdf).2.JB skewF kurtF chi2cdf).1 =
          (r.JB skewF kurtF chi2cdf).1 ∧
        ((r.ll logF piQ).2.ll logF piQ).1 = (r.ll logF piQ).1) ∧
      (let r' := (((r.dw.2.omni core).2.JB skewF kurtF chi2cdf).2.ll
          logF piQ).2
       r'.b = r.b ∧ r'.e = r.e ∧ r'.se = r.se ∧ r'.t = r.t ∧
       r'.p = r.p ∧ r'.R2 = r.R2 ∧ r'.R2adj = r.R2adj ∧ r'.F = r.F ∧
       r'.Fpv = r.Fpv ∧ r'.nobs = r.nobs ∧ r'.ncoef = r.ncoef ∧
       r'.df_e = r.df_e ∧ r'.df_r = r.df_r) := by
  intro core skewF kurtF chi2cdf logF piQ r
  refine ⟨⟨rfl, rfl, rfl, rfl⟩, ⟨rfl, rfl, rfl, rfl⟩,
    rfl, rfl, rfl, rfl, rfl, rfl, rfl, rfl, rfl, rfl, rfl, rfl, rfl⟩

/-- C7: `ols.omni` never raises: with fewer than 8 residuals the
`ValueError` of `stats.normaltest` is caught and the sentinel pair
`(nan, nan)` is returned; with 8 or more residuals the library's
normality statistic and p-value are returned — for every behaviour
`core` of the library's post-gate computation. -/
theorem omni_sentinel_under_8 :
    ∀ (core : List ℚ → ℚ × ℚ) (r : OlsResult),
      (r.e.length < 8 → (r.omni core).1 = (.nan, .nan)) ∧
      (8 ≤ r.e.length →
        (r.omni core).1 = (.val (core r.e).1, .val (core r.e).2)) := by
  intro core r
  constructor
  · intro h
    simp [OlsResult.omni, normaltest, h]
  · intro h
    simp [OlsResult.omni, normaltest, Nat.not_lt.mpr h]

/-- Witness for C7 at concrete residual vectors of lengths 3 and 8. -/
theorem omni_sentinel_under_8_witness :
    ((⟨[], [], [], "y", [], [], 0, 0, 0, 0, [1, 2, 3], 0, [], [], [],
        0, 0, 0, 0⟩ : OlsResult).omni (fun e => (e.sum, 0))).1 =
      (.nan, .nan) ∧
    ((⟨[], [], [], "y", [], [], 0, 0, 0, 0, [1, 2, 3, 4, 5, 6, 7, 8], 0,
        [], [], [], 0, 0, 0, 0⟩ : OlsResult).omni
      (fun e => (e.sum, 0))).1 = (.val 36, .val 0) := by
  constructor
  · exact (omni_sentinel_under_8 (fun e => (e.sum, 0)) _).1 (by decide)
  · have h := (omni_sentinel_under_8 (fun e => (e.sum, 0))
      ⟨[], [], [], "y", [], [], 0, 0, 0, 0, [1, 2, 3, 4, 5, 6, 7, 8], 0,
        [], [], [], 0, 0, 0, 0⟩).2 (by decide)
    rw [h]
    norm_num

/-- C3: for every valid construction, one- or two-sample, the stored
p-value is exactly half of the raw two-sided library p-value when the
alternative hypothesis is directional (`greater` or `less`) — whatever
the sign of the t-statistic, since the statement holds for every library
behaviour — and is the raw p-value unchanged for `unequal`. -/
theorem pvalue_halving :
    (∀ (raw : List ℚ → ℚ → ℚ × ℚ) (a : List ℚ) (pm : ℚ) (alt : String)
        (al : PyScalar) (tt : TT1),
        ttest_1samp raw a pm alt al = .ok tt →
        ((alt = "greater" ∨ alt = "less") →
          tt.p_val = (raw a pm).2 / 2) ∧
        (alt = "unequal" → tt.p_val = (raw a pm).2)) ∧
    (∀ (rawInd : List ℚ → List ℚ → Bool → ℚ × ℚ)
        (rawRel : List ℚ → List ℚ → ℚ × ℚ) (a b : List ℚ) (ty : String)
        (ev : Bool) (alt : String) (al : PyScalar) (tt : TT2),
        ttest_2samp rawInd rawRel a b ty ev alt al = .ok tt →
        ((alt = "greater" ∨ alt = "less") →
          tt.p_val =
            (if ty = "ind" then rawInd a b ev else rawRel a b).2 / 2) ∧
        (alt = "unequal" →
          tt.p_val =
            (if ty = "ind" then rawInd a b ev else rawRel a b).2)) := by
  constructor
  · intro raw a pm alt al tt h
    obtain ⟨-, rfl⟩ := ttest_1samp_ok_elim h
    constructor
    · rintro (rfl | rfl) <;> simp
    · rintro rfl; simp
  · intro rawInd rawRel a b ty ev alt al tt h
    obtain ⟨-, rfl⟩ := ttest_2samp_ok_elim h
    constructor
    · rintro (rfl | rfl) <;> simp
    · rintro rfl; simp

/-- Witness for C3 at concrete constructions: a one-sample test with
`alt_hyp = 'greater'` (raw p-value `1/2`, stored `1/2/2`) and a
two-sample independent test with `alt_hyp = 'less'` (raw p-value `3/5`,
stored `3/5/2`). -/
theorem pvalue_halving_witness :
    (⟨[1], 0, "greater", PyScalar.none, 3, 1 / 2 / 2⟩ : TT1).p_val =
      ((fun (_ : List ℚ) (_ : ℚ) => ((3 : ℚ), (1 : ℚ) / 2)) [1] 0).2 / 2 ∧
    (⟨[1], [2], "ind", true, "less", PyScalar.none, 5, 3 / 5 / 2⟩ :
        TT2).p_val =
      (if ("ind" : String) = "ind" then
          (fun (_ _ : List ℚ) (_ : Bool) => ((5 : ℚ), (3 : ℚ) / 5)) [1] [2]
            true
        else (fun (_ _ : List ℚ) => ((0 : ℚ), (0 : ℚ))) [1] [2]).2 / 2 := by
  constructor
  · exact (pvalue_halving.1 (fun _ _ => ((3 : ℚ), (1 : ℚ) / 2)) [1] 0
      "greater" PyScalar.none
      ⟨[1], 0, "greater", PyScalar.none, 3, 1 / 2 / 2⟩ rfl).1 (Or.inl rfl)
  · exact (pvalue_halving.2 (fun _ _ _ => ((5 : ℚ), (3 : ℚ) / 5))
      (fun _ _ => ((0 : ℚ), (0 : ℚ))) [1] [2] "ind" true "less"
      PyScalar.none
      ⟨[1], [2], "ind", true, "less", PyScalar.none, 5, 3 / 5 / 2⟩
      rfl).1 (Or.inr rfl)

/-- C4: whenever the Gram matrix of the augmented design matrix is
singular (zero determinant), `ols` construction fails with the
`LinAlgError` carrying the diagnostic message, for every library
behaviour and every choice of the remaining arguments; in particular no
result object is produced. -/
theorem singular_gram_fails :
    ∀ (sqrtF : ℚ → ℚ) (tcdf : ℚ → ℚ → ℚ) (fcdf : ℚ → ℚ → ℚ → ℚ)
      (x : XInput) (y : List ℚ) (nm : Option (List String)) (ynm : String),
      detL (matMul (transposeL x.augment) x.augment) = 0 →
      ols_init sqrtF tcdf fcdf x y nm ynm =
        .error (.linAlgError singularMsg) := by
  intro sqrtF tcdf fcdf x y nm ynm h
  simp [ols_init, estimate, pyInv, h]

/-- Witness for C4: a constant predictor column (the spec's
"constant-only row replicated across all observations") makes the Gram
matrix singular and construction fail. -/
theorem singular_gram_fails_witness :
    detL (matMul (transposeL (XInput.one [1, 1]).augment)
      (XInput.one [1, 1]).augment) = 0 ∧
    ols_init (fun q => q) (fun _ _ => 0) (fun _ _ _ => 0)
      (XInput.one [1, 1]) [1, 2] Option.none "y" =
      .error (.linAlgError singularMsg) := by
  have h : detL (matMul (transposeL (XInput.one [1, 1]).augment)
      (XInput.one [1, 1]).augment) = 0 := by
    norm_num [detL, detAux, dropIdx, dotL, transposeL, matMul,
      XInput.augment, List.enum, List.enumFrom, List.range]
  exact ⟨h, singular_gram_fails _ _ _ _ _ _ _ h⟩

/-- C6: without a user-supplied (truthy) name list, a one-dimensional or
single-column predictor input yields exactly `["const", "x"]`, and a
`k`-column input with `k > 1` yields exactly
`["const", "x1", ..., "xk"]`; and every constructed instance stores
exactly the names computed by this rule (`x_names`). -/
theorem default_variable_names :
    (∀ (x : XInput) (nm : Option (List String)),
        (nm = Option.none ∨ nm = some []) →
        ((x.isOneDim = true ∨ x.ncols = 1) →
          x_names x nm = ["const", "x"]) ∧
        (x.isOneDim = false → 1 < x.ncols →
          x_names x nm =
            "const" :: (List.range' 1 x.ncols).map
              (fun i => "x" ++ toString i))) ∧
    (∀ (sqrtF : ℚ → ℚ) (tcdf : ℚ → ℚ → ℚ) (fcdf : ℚ → ℚ → ℚ → ℚ)
        (x : XInput) (y : List ℚ) (nm : Option (List String))
        (ynm : String),
        (ols_init sqrtF tcdf fcdf x y nm ynm).map OlsResult.x_varnm =
          (ols_init sqrtF tcdf fcdf x y nm ynm).map
            (fun _ => x_names x nm)) := by
  constructor
  · intro x nm hnm
    have hx : x_names x nm = x_names.defaultNames x := by
      rcases hnm with rfl | rfl <;> simp [x_names]
    rw [hx]
    constructor
    · intro h
      unfold x_names.defaultNames
      rw [if_pos]
      rcases h with h | h
      · exact Or.inl (by simp [h])
      · exact Or.inr h
    · intro h1 h2
      unfold x_names.defaultNames
      rw [if_neg]
      rintro (hc | hc)
      · rw [h1] at hc; exact Bool.false_ne_true hc
      · omega
  · intro sqrtF tcdf fcdf x y nm ynm
    unfold ols_init estimate
    cases pyInv (matMul (transposeL x.augment) x.augment) <;> rfl

/-- Witness for C6: a one-dimensional input with no name list, and a
two-column input with an (falsy) empty name list. -/
theorem default_variable_names_witness :
    (XInput.one [1, 2, 3]).isOneDim = true ∧
    x_names (XInput.one [1, 2, 3]) Option.none = ["const", "x"] ∧
    (XInput.two [[1, 2], [3, 4]]).isOneDim = false ∧
    1 < (XInput.two [[1, 2], [3, 4]]).ncols ∧
    x_names (XInput.two [[1, 2], [3, 4]]) (some []) =
      "const" :: (List.range' 1 (XInput.two [[1, 2], [3, 4]]).ncols).map
        (fun i => "x" ++ toString i) := by
  refine ⟨rfl, ?_, rfl, by decide, ?_⟩
  · exact (default_variable_names.1 _ _ (Or.inl rfl)).1 (Or.inl rfl)
  · exact (default_variable_names.1 _ _ (Or.inr rfl)).2 rfl (by decide)

/-- C5 counterexample: constructing `ols` with a supplied name list
whose length (2) differs from the predictor column count (1) does NOT
raise the invalid-parameter error — construction succeeds, storing
`['const', 'a', 'b']`.  (`ols.__init__` contains no length check.) -/
theorem varname_length_not_checked :
    (["a", "b"] : List String).length ≠ (XInput.one [0, 1]).ncols ∧
    (ols_init (fun q => q) (fun _ _ => 0) (fun _ _ _ => 0)
        (XInput.one [0, 1]) [0, 1] (some ["a", "b"]) "y").map
      OlsResult.x_varnm = .ok ["const", "a", "b"] := by
  refine ⟨by decide, ?_⟩
  have h : detL (matMul (transposeL (XInput.one [0, 1]).augment)
      (XInput.one [0, 1]).augment) = 1 := by
    norm_num [detL, detAux, dropIdx, dotL, transposeL, matMul,
      XInput.augment, List.enum, List.enumFrom, List.range]
  simp [ols_init, estimate, pyInv, h, x_names, Except.map]

/-- C5 amended: a supplied (truthy) variable-name list is never
length-checked: whatever its length, construction stores it with
`'const'` prepended, and the only error `ols` construction can raise is
the singular-Gram-matrix `LinAlgError` — never an invalid-parameter
error. -/
theorem varname_mismatch_accepted :
    ∀ (sqrtF : ℚ → ℚ) (tcdf : ℚ → ℚ → ℚ) (fcdf : ℚ → ℚ → ℚ → ℚ)
      (x : XInput) (y : List ℚ) (l : List String) (ynm : String),
      l ≠ [] →
      ((ols_init sqrtF tcdf fcdf x y (some l) ynm).map OlsResult.x_varnm =
        (ols_init sqrtF tcdf fcdf x y (some l) ynm).map
          (fun _ => "const" :: l)) ∧
      (∀ e, ols_init sqrtF tcdf fcdf x y (some l) ynm = .error e →
        e = .linAlgError singularMsg) := by
  intro sqrtF tcdf fcdf x y l ynm hl
  have hx : x_names x (some l) = "const" :: l := by simp [x_names, hl]
  unfold ols_init estimate
  rw [hx]
  cases pyInv (matMul (transposeL x.augment) x.augment) with
  | none =>
      refine ⟨rfl, fun e he => ?_⟩
      simpa [eq_comm] using he
  | some inv_xx =>
      refine ⟨rfl, fun e he => ?_⟩
      cases he

/-- Witness for C5's amended claim: the mismatched list `['a', 'b']` on
a single-column design (stored names `['const', 'a', 'b']`), and, on a
singular design, the error the construction does raise. -/
theorem varname_mismatch_accepted_witness :
    ((ols_init (fun q => q) (fun _ _ => 0) (fun _ _ _ => 0)
        (XInput.one [0, 1]) [0, 1] (some ["a", "b"]) "y").map
      OlsResult.x_varnm =
    (ols_init (fun q => q) (fun _ _ => 0) (fun _ _ _ => 0)
        (XInput.one [0, 1]) [0, 1] (some ["a", "b"]) "y").map
      (fun _ => "const" :: ["a", "b"])) ∧
    PyError.linAlgError singularMsg = .linAlgError singularMsg := by
  constructor
  · exact (varname_mismatch_accepted (fun q => q) (fun _ _ => 0)
      (fun _ _ _ => 0) (XInput.one [0, 1]) [0, 1] ["a", "b"] "y"
      (by decide)).1
  · have hdet : detL (matMul (transposeL (XInput.one [1, 1]).augment)
        (XInput.one [1, 1]).augment) = 0 := by
      norm_num [detL, detAux, dropIdx, dotL, transposeL, matMul,
        XInput.augment, List.enum, List.enumFrom, List.range]
    have he : ols_init (fun q => q) (fun _ _ => 0) (fun _ _ _ => 0)
        (XInput.one [1, 1]) [1, 2] (some ["a", "b"]) "y" =
        .error (.linAlgError singularMsg) := by
      simp [ols_init, estimate, pyInv, hdet]
    exact (varname_mismatch_accepted (fun q => q) (fun _ _ => 0)
      (fun _ _ _ => 0) (XInput.one [1, 1]) [1, 2] ["a", "b"] "y"
      (by decide)).2 _ he

/-- C1 counterexample: a constructed one-sample test with a supplied,
positive alpha (`0.5`) and a stored p-value `0 < alpha`, for which the
code nevertheless reports the null hypothesis as NOT rejected — the
`self.p_val == 0` disjunct of the decision overrides `p < alpha`. -/
theorem reject_rule_counterexample :
    ttest_1samp (fun _ _ => ((5 : ℚ), (0 : ℚ))) [1, 2] 0 "unequal"
        (.float (1 / 2)) =
      .ok ⟨[1, 2], 0, "unequal", .float (1 / 2), 5, 0⟩ ∧
    PyScalar.float (1 / 2) ≠ PyScalar.none ∧
    (0 : ℚ) < (PyScalar.float (1 / 2)).toRat ∧
    rejectNull (.float (1 / 2)) 0 = false := by
  refine ⟨?_, by decide, by norm_num [PyScalar.toRat], ?_⟩
  · have hck : check_params_1samp "unequal" (.float (1 / 2)) = .ok () := by
      rw [check_params_1samp_alpha (by simp)]
      unfold checkAlpha
      norm_num [PyScalar.truthy, PyScalar.isNumType, PyScalar.toRat]
    unfold ttest_1samp
    rw [hck]
    simp [Bind.bind, Except.bind, pure, Except.pure]
  · norm_num [rejectNull]

/-- C1 amended: for every constructed t-test (one- or two-sample), the
null hypothesis is reported as rejected iff alpha was supplied, numeric
and positive, and the stored p-value is below alpha AND nonzero (the
code's extra `p_val == 0` escape); the alternative hypothesis is
accepted iff the null is rejected and the direction check holds
(`unequal` always, `less` requires `t < 0`, `greater` requires
`t > 0`). -/
theorem reject_rule_amended :
    (∀ (raw : List ℚ → ℚ → ℚ × ℚ) (a : List ℚ) (pm : ℚ) (alt : String)
        (al : PyScalar) (tt : TT1),
        ttest_1samp raw a pm alt al = .ok tt →
        (rejectNull tt.alpha tt.p_val = true ↔
          (tt.alpha ≠ .none ∧ tt.alpha.isNumType = true ∧
           0 < tt.alpha.toRat ∧ tt.p_val < tt.alpha.toRat ∧
           tt.p_val ≠ 0)) ∧
        (acceptAlt tt.alpha tt.alt_hyp tt.t_stat tt.p_val = true ↔
          (rejectNull tt.alpha tt.p_val = true ∧
           (tt.alt_hyp = "unequal" ∨
            (tt.alt_hyp = "less" ∧ tt.t_stat < 0) ∨
            (tt.alt_hyp = "greater" ∧ 0 < tt.t_stat))))) ∧
    (∀ (rawInd : List ℚ → List ℚ → Bool → ℚ × ℚ)
        (rawRel : List ℚ → List ℚ → ℚ × ℚ) (a b : List ℚ) (ty : String)
        (ev : Bool) (alt : String) (al : PyScalar) (tt : TT2),
        ttest_2samp rawInd rawRel a b ty ev alt al = .ok tt →
        (rejectNull tt.alpha tt.p_val = true ↔
          (tt.alpha ≠ .none ∧ tt.alpha.isNumType = true ∧
           0 < tt.alpha.toRat ∧ tt.p_val < tt.alpha.toRat ∧
           tt.p_val ≠ 0)) ∧
        (acceptAlt tt.alpha tt.alt_hyp tt.t_stat tt.p_val = true ↔
          (rejectNull tt.alpha tt.p_val = true ∧
           (tt.alt_hyp = "unequal" ∨
            (tt.alt_hyp = "less" ∧ tt.t_stat < 0) ∨
            (tt.alt_hyp = "greater" ∧ 0 < tt.t_stat))))) := by
  constructor
  · intro raw a pm alt al tt h
    obtain ⟨hck, rfl⟩ := ttest_1samp_ok_elim h
    obtain ⟨-, hca⟩ := check_params_1samp_ok_elim hck
    exact ⟨rejectNull_iff hca _, acceptAlt_iff _ _ _ _⟩
  · intro rawInd rawRel a b ty ev alt al tt h
    obtain ⟨hck, rfl⟩ := ttest_2samp_ok_elim h
    obtain ⟨-, -, hca⟩ := check_params_2samp_ok_elim hck
    exact ⟨rejectNull_iff hca _, acceptAlt_iff _ _ _ _⟩

/-- Witness for C1's amended claim: a one-sample test (raw p `1/5`,
halved to `1/10`, alpha `0.5`, `alt_hyp = 'greater'`, `t = 2`) whose
null is rejected and alternative accepted, and a two-sample paired test
(`alt_hyp = 'unequal'`, p `1/5`, alpha `0.5`) whose null is rejected. -/
theorem reject_rule_amended_witness :
    rejectNull (.float (1 / 2)) (1 / 5 / 2) = true ∧
    acceptAlt (.float (1 / 2)) "greater" 2 (1 / 5 / 2) = true ∧
    rejectNull (.int 1) (1 / 5) = true := by
  have h1 := (reject_rule_amended.1 (fun _ _ => ((2 : ℚ), (1 : ℚ) / 5))
    [1] 0 "greater" (.float (1 / 2))
    ⟨[1], 0, "greater", .float (1 / 2), 2, 1 / 5 / 2⟩ (by
      have hck : check_params_1samp "greater" (.float (1 / 2)) = .ok () := by
        rw [check_params_1samp_alpha (by simp)]
        unfold checkAlpha
        norm_num [PyScalar.truthy, PyScalar.isNumType, PyScalar.toRat]
      unfold ttest_1samp
      rw [hck]
      simp [Bind.bind, Except.bind, pure, Except.pure]))
  have h2 := (reject_rule_amended.2
    (fun _ _ _ => ((0 : ℚ), (0 : ℚ))) (fun _ _ => ((3 : ℚ), (1 : ℚ) / 5))
    [1] [2] "rel" true "unequal" (.int 1)
    ⟨[1], [2], "rel", true, "unequal", .int 1, 3, 1 / 5⟩ (by
      have hck : check_params_2samp "rel" "unequal" (.int 1) = .ok () := by
        rw [check_params_2samp_alpha (by simp) (by simp)]
        unfold checkAlpha
        norm_num [PyScalar.truthy, PyScalar.isNumType, PyScalar.toRat]
      unfold ttest_2samp
      rw [hck]
      simp [Bind.bind, Except.bind, pure, Except.pure]))
  have hr1 : rejectNull (.float (1 / 2)) (1 / 5 / 2) = true :=
    h1.1.mpr ⟨by decide, rfl, by norm_num [PyScalar.toRat],
      by norm_num [PyScalar.toRat], by norm_num⟩
  refine ⟨hr1, h1.2.mpr ⟨hr1, Or.inr (Or.inr ⟨rfl, by norm_num⟩)⟩, ?_⟩
  exact h2.1.mpr ⟨by decide, rfl, by norm_num [PyScalar.toRat],
    by norm_num [PyScalar.toRat], by norm_num⟩

/-- C2 counterexample: a falsy, non-numeric alpha — the empty string —
does NOT raise: the alpha validation sits under `if self.alpha:` and is
skipped entirely, so construction succeeds. -/
theorem falsy_alpha_skips_validation :
    (PyScalar.str "").isNumType = false ∧
    ttest_1samp (fun _ _ => ((1 : ℚ), (1 : ℚ))) [1] 0 "unequal"
        (.str "") = .ok ⟨[1], 0, "unequal", .str "", 1, 1⟩ := by
  refine ⟨rfl, ?_⟩
  have hck : check_params_1samp "unequal" (.str "") = .ok () := by
    rw [check_params_1samp_alpha (by simp)]
    rfl
  unfold ttest_1samp
  rw [hck]
  simp [Bind.bind, Except.bind, pure, Except.pure]

/-- C2 amended: for both constructions, an out-of-enum alternative
hypothesis always raises the invalid-parameter `ValueError`; the alpha
checks run only when alpha is truthy, so a TRUTHY non-numeric alpha
raises the type error and a numeric alpha outside `[0, 1]` (necessarily
truthy) raises the range error — but a falsy alpha of any type skips
validation.  In every error case the result is the `check_params` error
for every library behaviour, i.e. the failure precedes any t-statistic
computation. -/
theorem invalid_params_raise :
    (∀ (raw : List ℚ → ℚ → ℚ × ℚ) (a : List ℚ) (pm : ℚ) (alt : String)
        (al : PyScalar),
        (alt ∉ ["less", "unequal", "greater"] →
          ttest_1samp raw a pm alt al =
            .error (.valueError (altHypMsg alt))) ∧
        (alt ∈ ["less", "unequal", "greater"] → al.truthy = true →
          al.isNumType = false →
          ttest_1samp raw a pm alt al =
            .error (.valueError (alphaTypeMsg al))) ∧
        (alt ∈ ["less", "unequal", "greater"] → al.isNumType = true →
          (al.toRat < 0 ∨ 1 < al.toRat) →
          ttest_1samp raw a pm alt al =
            .error (.valueErrorArgs alphaRangeMsg al))) ∧
    (∀ (rawInd : List ℚ → List ℚ → Bool → ℚ × ℚ)
        (rawRel : List ℚ → List ℚ → ℚ × ℚ) (a b : List ℚ) (ty : String)
        (ev : Bool) (alt : String) (al : PyScalar),
        (ty ∈ ["ind", "rel"] → alt ∉ ["less", "unequal", "greater"] →
          ttest_2samp rawInd rawRel a b ty ev alt al =
            .error (.valueError (altHypMsg alt))) ∧
        (ty ∈ ["ind", "rel"] → alt ∈ ["less", "unequal", "greater"] →
          al.truthy = true → al.isNumType = false →
          ttest_2samp rawInd rawRel a b ty ev alt al =
            .error (.valueError (alphaTypeMsg al))) ∧
        (ty ∈ ["ind", "rel"] → alt ∈ ["less", "unequal", "greater"] →
          al.isNumType = true → (al.toRat < 0 ∨ 1 < al.toRat) →
          ttest_2samp rawInd rawRel a b ty ev alt al =
            .error (.valueErrorArgs alphaRangeMsg al))) := by
  constructor
  · intro raw a pm alt al
    refine ⟨fun h => ?_, fun hm ht hn => ?_, fun hm hn hr => ?_⟩
    · exact ttest_1samp_error (check_params_1samp_alt_error h)
    · exact ttest_1samp_error
        ((check_params_1samp_alpha hm).trans (checkAlpha_type_error ht hn))
    · exact ttest_1samp_error
        ((check_params_1samp_alpha hm).trans (checkAlpha_range_error hn hr))
  · intro rawInd rawRel a b ty ev alt al
    refine ⟨fun hty h => ?_, fun hty hm ht hn => ?_, fun hty hm hn hr => ?_⟩
    · exact ttest_2samp_error (check_params_2samp_alt_error hty h)
    · exact ttest_2samp_error ((check_params_2samp_alpha hty hm).trans
        (checkAlpha_type_error ht hn))
    · exact ttest_2samp_error ((check_params_2samp_alpha hty hm).trans
        (checkAlpha_range_error hn hr))

/-- Witness for C2's amended claim: all six error cases at concrete
inputs — a bad alternative hypothesis, a truthy string alpha, and alpha
`= 2`, for each of the two constructions. -/
theorem invalid_params_raise_witness :
    ttest_1samp (fun _ _ => ((0 : ℚ), (0 : ℚ))) [1] 0 "bad"
        PyScalar.none = .error (.valueError (altHypMsg "bad")) ∧
    ttest_1samp (fun _ _ => ((0 : ℚ), (0 : ℚ))) [1] 0 "unequal"
        (.str "oops") = .error (.valueError (alphaTypeMsg (.str "oops"))) ∧
    ttest_1samp (fun _ _ => ((0 : ℚ), (0 : ℚ))) [1] 0 "unequal"
        (.int 2) = .error (.valueErrorArgs alphaRangeMsg (.int 2)) ∧
    ttest_2samp (fun _ _ _ => ((0 : ℚ), (0 : ℚ)))
        (fun _ _ => ((0 : ℚ), (0 : ℚ))) [1] [2] "ind" true "bad"
        PyScalar.none = .error (.valueError (altHypMsg "bad")) ∧
    ttest_2samp (fun _ _ _ => ((0 : ℚ), (0 : ℚ)))
        (fun _ _ => ((0 : ℚ), (0 : ℚ))) [1] [2] "ind" true "unequal"
        (.str "oops") = .error (.valueError (alphaTypeMsg (.str "oops"))) ∧
    ttest_2samp (fun _ _ _ => ((0 : ℚ), (0 : ℚ)))
        (fun _ _ => ((0 : ℚ), (0 : ℚ))) [1] [2] "ind" true "unequal"
        (.int 2) = .error (.valueErrorArgs alphaRangeMsg (.int 2)) := by
  refine ⟨(invalid_params_raise.1 _ _ _ _ _).1 (by simp),
    (invalid_params_raise.1 _ _ _ _ _).2.1 (by simp) rfl rfl,
    (invalid_params_raise.1 _ _ _ _ _).2.2 (by simp) rfl
      (Or.inr (by norm_num [PyScalar.toRat])),
    (invalid_params_raise.2 _ _ _ _ _ _ _ _).1 (by simp) (by simp),
    (invalid_params_raise.2 _ _ _ _ _ _ _ _).2.1 (by simp) (by simp)
      rfl rfl,
    (invalid_params_raise.2 _ _ _ _ _ _ _ _).2.2 (by simp) (by simp) rfl
      (Or.inr (by norm_num [PyScalar.toRat]))⟩

end StatWrappers

